import Mathlib

/-!
Verification of the Chichu Art Museum availability checker
(`chichu_availability_checker.py`) against its natural-language
specification.

The development shallowly embeds the two classification paths and the
multi-date entry point of the script:

* `looks_available` — the full-page text classifier (source lines 131-139),
  built on a small matcher for the handful of regular expressions in
  `AVAILABILITY_POSITIVE` / `AVAILABILITY_NEGATIVE` (source lines 77-86);
* `classifyButton` — the per-date-cell classification cascade of the
  `__main__` block (source lines 424-456);
* `setupNav` / `dateNavEffects` — the month-navigation clicks performed
  once after the iframe is located (source lines 288-318) and once per
  requested date (source lines 344-366);
* `inspectDate`, `dateStep`, `processDates`, `runMulti` — the per-date
  inspection, screenshot and result-recording loop (source lines 332-493),
  with the effectful operations (DOM queries, screenshots, notifications)
  abstracted into environment records that fix each operation's outcome,
  and clicks / screenshots / notifications recorded as an `Effect` trace;
* `main` — the single-date entry point (source lines 142-213) at the
  granularity of its exit codes and notification calls.

Outcome-free interactions of the script (the popup "OK" click, fixed
`wait_for_timeout` sleeps, and all `print` debugging except the per-date
day listing) are not observable in any claim and are elided.
-/

/-! ### Python string helpers -/

/-- Python whitespace class `\s` restricted to its ASCII members
` \t\n\r\f\v` (the texts in this repository are ASCII plus a few
calendar symbols, none of which are whitespace). -/
def isSpaceChar (c : Char) : Bool :=
  c = ' ' || c = '\t' || c = '\n' || c = '\r' || c = '\x0b' || c = '\x0c'

/-- `litStarts needle hay`: `needle` is literally (case-sensitively) a
leading segment of `hay`. -/
def litStarts : List Char → List Char → Bool
  | [], _ => true
  | _ :: _, [] => false
  | a :: as, b :: bs => a = b && litStarts as bs

/-- Haystack containment on character lists, mirroring Python's
case-sensitive substring operator `in`. -/
def strContainsL (needle : List Char) : List Char → Bool
  | [] => litStarts needle []
  | c :: rest => litStarts needle (c :: rest) || strContainsL needle rest

/-- `strContains needle hay` mirrors Python's `needle in hay`. -/
def strContains (needle hay : String) : Bool :=
  strContainsL needle.data hay.data

/-- Python's `str.lower()` for the ASCII texts involved. -/
def strLower (s : String) : String :=
  String.mk (s.data.map Char.toLower)

/-- Python's `str.replace(a, b)` for single characters,
as in `d.replace('-', '_')` (source line 474). -/
def pyReplace (s : String) (a b : Char) : String :=
  String.mk (s.data.map (fun c => if c = a then b else c))

/-- `"; ".join(evidence)` (source line 480). -/
def joinEv : List String → String
  | [] => ""
  | [e] => e
  | e :: rest => e ++ "; " ++ joinEv rest

/-- Python slicing `s[:300]` (source line 480), counting characters. -/
def truncate300 (s : String) : String :=
  String.mk (s.data.take 300)

/-- Python slicing `s[:200]` applied to `inner_html()` (source line 412). -/
def truncate200 (s : String) : String :=
  String.mk (s.data.take 200)

/-- Python's `str.strip()` (whitespace from both ends; the texts here
are ASCII). -/
def pyStrip (s : String) : String :=
  String.mk (((s.data.dropWhile isSpaceChar).reverse.dropWhile isSpaceChar).reverse)

/-- `day.inner_text().strip().isdigit()` (source line 466): the stripped
text is nonempty and all digits. -/
def stripDigits (s : String) : Bool :=
  !(pyStrip s).data.isEmpty && (pyStrip s).data.all Char.isDigit

/-! ### The availability regular expressions (source lines 77-86)

The patterns in `AVAILABILITY_POSITIVE` / `AVAILABILITY_NEGATIVE` use only
literal characters, character classes of literal alternatives, and `\s*`.
They are embedded as token lists over `RTok` and run by a direct
backtracking matcher; `re.I` is reproduced by lowering the text and
writing the literals in lowercase. -/

/-- One token of the embedded regular expressions: a character class of
explicit alternatives, or `\s*`. -/
inductive RTok
  | lit (cs : List Char)
  | wsStar
deriving DecidableEq

/-- Match a token list against a leading segment of the text
(Python `re.match` semantics at one position).  `\s*` is taken
maximal-munch: in every pattern of the script a `wsStar` is followed by
a letter literal, which can never match a whitespace character, so the
greedy-with-backtracking semantics of `re` coincides with consuming the
maximal whitespace run. -/
def matchToks : List RTok → List Char → Bool
  | [], _ => true
  | RTok.lit _ :: _, [] => false
  | RTok.lit cs :: ts, c :: rest => cs.contains c && matchToks ts rest
  | RTok.wsStar :: ts, s => matchToks ts (s.dropWhile isSpaceChar)

/-- `re.search`: the token list matches at some position of the text. -/
def searchToks (p : List RTok) : List Char → Bool
  | [] => matchToks p []
  | c :: rest => matchToks p (c :: rest) || searchToks p rest

/-- `re.search(pat, text, flags=re.I)` for the availability patterns:
case-insensitivity by lowering the text (the pattern literals are
written in lowercase). -/
def reSearchI (p : List RTok) (t : String) : Bool :=
  searchToks p (t.data.map Char.toLower)

/-- Literal word as a token list. -/
def lits (s : String) : List RTok :=
  s.data.map (fun c => RTok.lit [c])

/-- `r"[○◯]"` — open circle (source line 78). -/
def patCircle : List RTok := [RTok.lit ['○', '◯']]

/-- `r"△"` — few left (source line 79). -/
def patTriangle : List RTok := [RTok.lit ['△']]

/-- `r"Sold\s*out"` (source line 82). -/
def patSoldOut : List RTok := lits "sold" ++ [RTok.wsStar] ++ lits "out"

/-- `r"Fully\s*booked"` (source line 83). -/
def patFullyBooked : List RTok := lits "fully" ++ [RTok.wsStar] ++ lits "booked"

/-- `r"Unavailable"` (source line 84). -/
def patUnavailable : List RTok := lits "unavailable"

/-- `r"[×✕✖]"` — cross, full (source line 85). -/
def patCross : List RTok := [RTok.lit ['×', '✕', '✖']]

/-- `AVAILABILITY_POSITIVE` (source lines 77-80). -/
def AVAILABILITY_POSITIVE : List (List RTok) := [patCircle, patTriangle]

/-- `AVAILABILITY_NEGATIVE` (source lines 81-86). -/
def AVAILABILITY_NEGATIVE : List (List RTok) :=
  [patSoldOut, patFullyBooked, patUnavailable, patCross]

/-- Some negative pattern fires on the text: the first loop of
`looks_available` (source lines 133-135) returns `False` exactly when
this holds. -/
def hasNegMarker (t : String) : Bool :=
  AVAILABILITY_NEGATIVE.any (fun p => reSearchI p t)

/-- Some positive pattern fires on the text: the second loop of
`looks_available` (source lines 136-138). -/
def hasPosMarker (t : String) : Bool :=
  AVAILABILITY_POSITIVE.any (fun p => reSearchI p t)

/-- `looks_available` (source lines 131-139): scan the negative patterns
first, returning `False` on the first hit; then the positive patterns,
returning `True` on the first hit; else `False`.  The early-return loops
over the two pattern lists are `List.any`. -/
def looks_available (text : String) : Bool :=
  if hasNegMarker text then false
  else if hasPosMarker text then true
  else false

/-! ### Verdicts and the per-cell classifier (source lines 371-456) -/

/-- The tri-state verdict recorded for each date
(strings `"AVAILABLE"`, `"UNAVAILABLE"`, `"UNSURE"` in the script). -/
inductive Verdict
  | AVAILABLE
  | UNAVAILABLE
  | UNSURE
deriving DecidableEq

/-- What the script observes about the resolved date-cell button
(source lines 411-421): presence of the three availability icons inside
the button, its `class` attribute, and its full `inner_html()` (the
script truncates the HTML to 200 characters before use). -/
structure ButtonObs where
  available_img : Bool
  sold_out_img : Bool
  few_left_img : Bool
  button_class : String
  button_html : String
deriving DecidableEq

/-- The classification cascade over a found button (source lines 424-456):
`if available_img / elif few_left_img / elif sold_out_img /
elif 'sold-out-layout' in class / elif 'pointer-none' in class /
elif 'day-active' in class (then 'aval' in html[:200]) / else`, together
with the evidence string each branch appends. -/
def classifyButton (b : ButtonObs) : Verdict × String :=
  if b.available_img then (Verdict.AVAILABLE, "available.svg found")
  else if b.few_left_img then (Verdict.AVAILABLE, "only_one_left.svg found")
  else if b.sold_out_img then (Verdict.UNAVAILABLE, "sold_out.svg found")
  else if strContains "sold-out-layout" b.button_class then
    (Verdict.UNAVAILABLE, "sold-out-layout class")
  else if strContains "pointer-none" b.button_class then
    (Verdict.UNAVAILABLE, "pointer-none class (closed)")
  else if strContains "day-active" b.button_class then
    (if strContains "aval" (truncate200 b.button_html) then
      (Verdict.AVAILABLE, "day-active + aval found")
    else (Verdict.UNSURE, "day-active but no clear availability indicator"))
  else (Verdict.UNSURE, "unknown button state: " ++ b.button_class)

/-- A negative cell marker in the sense of the specification: the sold-out
icon, or one of the two class substrings the cascade treats as negative. -/
def cellNegMarker (b : ButtonObs) : Bool :=
  b.sold_out_img || strContains "sold-out-layout" b.button_class ||
    strContains "pointer-none" b.button_class

/-- A positive cell marker in the sense of the specification: the
available or few-left icon, or the `day-active` class confirmed by the
`aval` substring of the truncated inner HTML. -/
def cellPosMarker (b : ButtonObs) : Bool :=
  b.available_img || b.few_left_img ||
    (strContains "day-active" b.button_class &&
      strContains "aval" (truncate200 b.button_html))

/-! ### Per-date inspection (source lines 371-471)

The try-block around date-cell inspection either raises (any DOM call may
throw; the handler at line 469 records `error: ...`), or runs to
completion having probed the three selectors
`.title-day:has-text(day)`, `button:has-text(day)`, `span:has-text(day)`
(source lines 376-380).  A selector either finds no element (`none`) or
finds one; a found element resolves to its enclosing button
(`some obs`) or to no button at all (`none`, source lines 457-459).
`titleDays` is the `inner_text` of every `.title-day` element, used for
the not-found diagnostic listing (source lines 465-467). -/
inductive InspectOutcome
  | raised (msg : String)
  | ran (s1 s2 s3 : Option (Option ButtonObs)) (titleDays : List String)
deriving DecidableEq

/-- The selector loop of source lines 382-387: the first selector that
finds an element wins. -/
def firstSel (s1 s2 s3 : Option (Option ButtonObs)) : Option (Option ButtonObs) :=
  match s1 with
  | some x => some x
  | none =>
    match s2 with
    | some x => some x
    | none => s3

/-- Inspect one date: verdict, evidence strings appended, and the
diagnostic day listing printed when no cell is found.  Mirrors source
lines 371-471: initial verdict `UNSURE`, first matching selector wins,
and the exception handler turns the exception text into evidence. -/
def inspectDate : InspectOutcome → Verdict × List String × List String
  | InspectOutcome.raised msg => (Verdict.UNSURE, ["error: " ++ msg], [])
  | InspectOutcome.ran s1 s2 s3 days =>
    match firstSel s1 s2 s3 with
    | some (some b) =>
      let r := classifyButton b
      (r.1, [r.2], [])
    | some none =>
      (Verdict.UNSURE, ["found day element but no parent button"], [])
    | none =>
      (Verdict.UNSURE, ["date element not found"], days.filter stripDigits)

/-- The button observation the inspection actually classified, if any. -/
def foundButtonOf : InspectOutcome → Option ButtonObs
  | InspectOutcome.raised _ => none
  | InspectOutcome.ran s1 s2 s3 _ =>
    match firstSel s1 s2 s3 with
    | some (some b) => some b
    | _ => none

/-! ### The month pattern (source line 291)

`r'\b(January|...|December)\s+20\d{2}\b'` with `re.I`, searched with
`re.search` and read back with `month_match.group()`.  The matcher below
reproduces it: leftmost position whose preceding character is a
non-word character (or start of text), one month name case-insensitively
(no name is a prefix of another, so the alternation is deterministic), a
maximal nonempty whitespace run (`\s+` is greedy and the following `2`
is not whitespace, so no backtracking is possible), literal `20`, two
digits, and a trailing word boundary.  Word characters are modelled as
ASCII alphanumerics plus underscore. -/

/-- The twelve alternatives of the month group, in pattern order and
lowercase. -/
def monthNamesL : List (List Char) :=
  ["january".data, "february".data, "march".data, "april".data,
   "may".data, "june".data, "july".data, "august".data,
   "september".data, "october".data, "november".data, "december".data]

/-- Case-insensitive literal segment match: the remainder of the text on
success. -/
def ciStarts : List Char → List Char → Option (List Char)
  | [], s => some s
  | _ :: _, [] => none
  | p :: ps, c :: cs => if c.toLower = p then ciStarts ps cs else none

/-- Length and remainder of the leading whitespace run. -/
def wsCount : List Char → Nat × List Char
  | [] => (0, [])
  | c :: cs =>
    if isSpaceChar c then
      let r := wsCount cs
      (r.1 + 1, r.2)
    else (0, c :: cs)

/-- `\w` restricted to ASCII. -/
def isWordChar (c : Char) : Bool := c.isAlphanum || c = '_'

/-- Match the month pattern at the current position; returns the length
of the matched text. -/
def matchMonthHere (s : List Char) : Option Nat :=
  monthNamesL.findSome? (fun name =>
    match ciStarts name s with
    | none => none
    | some rest =>
      let w := wsCount rest
      if w.1 = 0 then none
      else
        match w.2 with
        | '2' :: '0' :: a :: b :: rest3 =>
          if a.isDigit && b.isDigit &&
              (match rest3 with
               | [] => true
               | c :: _ => !isWordChar c) then
            some (name.length + w.1 + 4)
          else none
        | _ => none)

/-- A word boundary holds before the current position. -/
def boundaryPrev : Option Char → Bool
  | none => true
  | some c => !isWordChar c

/-- Scan left to right for the first month-pattern match, returning the
matched characters (`month_match.group()`). -/
def findMonthFrom (prev : Option Char) : List Char → Option (List Char)
  | [] => none
  | c :: rest =>
    match (if boundaryPrev prev then matchMonthHere (c :: rest) else none) with
    | some n => some ((c :: rest).take n)
    | none => findMonthFrom (some c) rest

/-- `re.search(month_pattern, s, re.I)` followed by `.group()`. -/
def findMonthMatch (s : String) : Option String :=
  (findMonthFrom none s.data).map String.mk

/-! ### Effects and navigation -/

/-- The externally visible actions of the multi-date run that the claims
talk about: month-navigation clicks, screenshot attempts (against the
calendar frame and against the top-level page), and the three
notification calls (which only `main` performs). -/
inductive Effect
  | clickNextMonth
  | shotFrame (path : String)
  | shotPage (path : String)
  | notifyDesktop
  | notifyTelegram
  | notifyEmail
deriving DecidableEq

/-- Environment of the one-time iframe/month setup (source lines
272-330): whether the calendar iframe was found and its content frame
accessible, the frame's visible text, whether the next-month arrow was
found, and the frame text re-read after a click. -/
structure SetupEnv where
  iframeOk : Bool
  bodyText : String
  nextBtnFound : Bool
  updatedText : String
deriving DecidableEq

/-- The setup navigation (source lines 288-318): match the month pattern
in the frame text; on `September 2025` click next (if the arrow exists)
and set the `_navigated_to_october` flag when the re-read text matches
the month pattern again; on `October 2025` set the flag without
clicking; otherwise do nothing.  Returns the click effects and the
flag. -/
def setupNav (e : SetupEnv) : List Effect × Bool :=
  if !e.iframeOk then ([], false)
  else
    match findMonthMatch e.bodyText with
    | none => ([], false)
    | some m =>
      if strContains "september 2025" (strLower m) then
        (if e.nextBtnFound then
          ([Effect.clickNextMonth], (findMonthMatch e.updatedText).isSome)
        else ([], false))
      else if strContains "october 2025" (strLower m) then ([], true)
      else ([], false)

/-- Per-date environment: the calendar text read before the per-date
navigation check (source line 346), whether the next arrow is found
(source line 357), the inspection outcome, and the outcomes of the two
screenshot attempts (source lines 475-478). -/
structure DateEnv where
  navBodyText : String
  nextArrowFound : Bool
  inspect : InspectOutcome
  frameShotOk : Bool
  pageShotOk : Bool
deriving DecidableEq

/-- The per-date month-navigation check (source lines 349-365): skip when
the setup flag is set; skip when the text contains `October 2025` and
the target is October 2025; otherwise click the next arrow if present
(the prev-arrow branch only prints). -/
def dateNavEffects (navigatedFlag : Bool) (targetYear targetMonth : Nat)
    (e : DateEnv) : List Effect :=
  if navigatedFlag then []
  else if strContains "October 2025" e.navBodyText && targetMonth == 10 &&
      targetYear == 2025 then []
  else if e.nextArrowFound then [Effect.clickNextMonth]
  else []

/-! ### The multi-date run (source lines 225-493) -/

/-- One row of the `results` list (source line 480). -/
structure CheckResult where
  date : String
  verdict : Verdict
  evidence : String
deriving DecidableEq

/-- Python's `d.split('-')` on the character list:
`"a-b".split('-') = ["a", "b"]`, `"".split('-') = [""]`. -/
def splitDashL : List Char → List (List Char)
  | [] => [[]]
  | c :: rest =>
    let r := splitDashL rest
    if c = '-' then [] :: r
    else
      match r with
      | [] => [[c]]
      | g :: gs => (c :: g) :: gs

/-- `int(s)` for the plain decimal numerals of ISO dates; `none` models
the `ValueError` on an empty or non-digit part. -/
def pyInt : List Char → Option Nat
  | [] => none
  | cs =>
    if cs.all Char.isDigit then
      some (cs.foldl (fun n c => n * 10 + (c.toNat - 48)) 0)
    else none

/-- `target_year, target_month, target_day = d.split('-')` followed by
`int(...)` on each part (source lines 339-340).  `none` models the
uncaught `ValueError` a malformed date raises there (which would crash
the run). -/
def parseDate (d : String) : Option (Nat × Nat × Nat) :=
  match splitDashL d.data with
  | [y, m, dd] =>
    match pyInt y, pyInt m, pyInt dd with
    | some a, some b, some c => some (a, b, c)
    | _, _, _ => none
  | _ => none

/-- `screenshots/{safe_d}.png` with `safe_d = d.replace('-', '_')`
(source lines 474-478). -/
def shotPath (d : String) : String :=
  "screenshots/" ++ pyReplace d '-' '_' ++ ".png"

/-- Process a single date after parsing (source lines 344-480): the
month-navigation check, the inspection try-block, then the screenshot
with its single fallback.  When the frame screenshot fails, the bare
`except` retries once against the top-level page; if that second call
also fails, the exception is uncaught (`Except.error`), which aborts the
whole run.  On success: the recorded result (evidence joined with `"; "`
and truncated to 300 characters), the effect trace, and the diagnostic
day listing. -/
def dateStep (navigatedFlag : Bool) (d : String) (ty tm : Nat) (e : DateEnv) :
    Except Unit (CheckResult × List Effect × List String) :=
  let navFx := dateNavEffects navigatedFlag ty tm e
  let r := inspectDate e.inspect
  if e.frameShotOk then
    Except.ok (⟨d, r.1, truncate300 (joinEv r.2.1)⟩,
      navFx ++ [Effect.shotFrame (shotPath d)], r.2.2)
  else if e.pageShotOk then
    Except.ok (⟨d, r.1, truncate300 (joinEv r.2.1)⟩,
      navFx ++ [Effect.shotFrame (shotPath d), Effect.shotPage (shotPath d)],
      r.2.2)
  else Except.error ()

/-- `for d in dates:` (source lines 332-480): process the dates in
order, accumulating results, effects and day listings; an uncaught
exception (malformed date at the parse, or double screenshot failure)
aborts the loop. -/
def processDates (navigatedFlag : Bool) :
    List (String × DateEnv) →
      Except Unit (List CheckResult × List Effect × List (List String))
  | [] => Except.ok ([], [], [])
  | (d, e) :: rest =>
    match parseDate d with
    | none => Except.error ()
    | some (ty, tm, _) =>
      match dateStep navigatedFlag d ty tm e with
      | Except.error _ => Except.error ()
      | Except.ok (r, fx, dbg) =>
        match processDates navigatedFlag rest with
        | Except.error _ => Except.error ()
        | Except.ok (rs, fxs, dbgs) => Except.ok (r :: rs, fx ++ fxs, dbg :: dbgs)

/-- Environment of a whole multi-date invocation: whether the initial
`page.goto` succeeds (the outer try at source line 252 has only a
`finally`, no handler), the setup environment, and the per-date
environments paired with the requested date strings. -/
structure RunEnv where
  gotoOk : Bool
  setup : SetupEnv
  dates : List (String × DateEnv)
deriving DecidableEq

/-- What a completed run has produced: the `results` rows, the effect
trace, and the per-date diagnostic day listings. -/
structure RunReport where
  results : List CheckResult
  effects : List Effect
  debugDays : List (List String)
deriving DecidableEq

/-- Outcome of the multi-date entry point: `crashed` when an uncaught
exception propagates out of the `try/finally` (the process dies with a
traceback before the summary print at line 483), `completed` when the
loop finishes and the summary is printed. -/
inductive RunOutcome
  | crashed
  | completed (rep : RunReport)
deriving DecidableEq

/-- The `__main__` multi-date entry point (source lines 248-493):
navigate (crash on failure), run the setup navigation to obtain the
`_navigated_to_october` flag, then process every requested date;
the summary is printed exactly when the loop completes. -/
def runMulti (env : RunEnv) : RunOutcome :=
  if env.gotoOk then
    match processDates (setupNav env.setup).2 env.dates with
    | Except.error _ => RunOutcome.crashed
    | Except.ok (rs, fxs, dbgs) =>
      RunOutcome.completed ⟨rs, (setupNav env.setup).1 ++ fxs, dbgs⟩
  else RunOutcome.crashed

/-- Process exit code: `0` after a normal fall-through of the
`__main__` block, `1` for a Python traceback from an uncaught
exception. -/
def exitCode : RunOutcome → Nat
  | RunOutcome.crashed => 1
  | RunOutcome.completed _ => 0

/-- The summary table print at source lines 483-489 runs exactly when
the loop completed. -/
def summaryPrinted : RunOutcome → Bool
  | RunOutcome.crashed => false
  | RunOutcome.completed _ => true

/-- The `results` rows of a completed run. -/
def resultsOf : RunOutcome → Option (List CheckResult)
  | RunOutcome.crashed => none
  | RunOutcome.completed rep => some rep.results

/-- The diagnostic day listings of a completed run. -/
def debugOf : RunOutcome → Option (List (List String))
  | RunOutcome.crashed => none
  | RunOutcome.completed rep => some rep.debugDays

/-- Recognise a month-navigation click in the effect trace. -/
def isClick : Effect → Bool
  | Effect.clickNextMonth => true
  | _ => false

/-- Recognise a notification call in the effect trace. -/
def isNotify : Effect → Bool
  | Effect.notifyDesktop => true
  | Effect.notifyTelegram => true
  | Effect.notifyEmail => true
  | _ => false

/-- Number of month-navigation clicks in an effect trace. -/
def countClicks (fx : List Effect) : Nat := (fx.filter isClick).length

/-- Month-navigation clicks of a whole run (zero for a crashed run,
whose partial trace is not recorded). -/
def runClickCount : RunOutcome → Nat
  | RunOutcome.crashed => 0
  | RunOutcome.completed rep => countClicks rep.effects

/-- The result row `dateStep` records for a date whose screenshots do not
doubly fail: verdict and joined, truncated evidence from the inspection
outcome. -/
def expectedResult (p : String × DateEnv) : CheckResult :=
  let r := inspectDate p.2.inspect
  ⟨p.1, r.1, truncate300 (joinEv r.2.1)⟩

/-- The diagnostic day listing `dateStep` records for a date. -/
def expectedDebug (p : String × DateEnv) : List String :=
  (inspectDate p.2.inspect).2.2

/-! ### The single-date entry point `main` (source lines 142-213) -/

/-- Outcome of `main`'s navigation-and-scrape phase: the page text when
everything succeeds, a `PlaywrightTimeoutError`, or any other
exception. -/
inductive NavResult
  | ok (pageText : String)
  | timeout
  | err (msg : String)
deriving DecidableEq

/-- The source's `main` (source lines 142-213; Lean reserves the name
`main` for executables, hence the suffix): on success classify the page
text with `looks_available` and, when it reports availability, invoke
the three notification channels, returning 0; return 2 on a navigation
timeout and 3 on any other exception (no notification in either
case). -/
def mainSingle (nav : NavResult) : Nat × List Effect :=
  match nav with
  | NavResult.ok text =>
    if looks_available text then
      (0, [Effect.notifyDesktop, Effect.notifyTelegram, Effect.notifyEmail])
    else (0, [])
  | NavResult.timeout => (2, [])
  | NavResult.err _ => (3, [])

/-- No notification call occurs in an effect trace. -/
def noNotify (fx : List Effect) : Bool := fx.all (fun x => !isNotify x)

/-! ### Concrete environments used by counterexamples and witnesses -/

/-- A run whose initial `page.goto` raises. -/
def c3Env : RunEnv := ⟨false, ⟨false, "", false, ""⟩, []⟩

/-- A completed one-date run (no iframe, cell not found, frame screenshot
succeeds). -/
def c3EnvW : RunEnv :=
  ⟨true, ⟨false, "", false, ""⟩,
   [("2025-10-07", ⟨"", false, InspectOutcome.ran none none none [], true, true⟩)]⟩

/-- A two-date run whose second date's inspection raises `boom`. -/
def c4Env : RunEnv :=
  ⟨true, ⟨false, "", false, ""⟩,
   [("2025-10-07", ⟨"", false, InspectOutcome.ran none none none [], true, true⟩),
    ("2025-10-08", ⟨"", false, InspectOutcome.raised "boom", true, true⟩)]⟩

/-- The second date's environment inside `c4Env`. -/
def c4Date : DateEnv := ⟨"", false, InspectOutcome.raised "boom", true, true⟩

/-- A one-date run where both screenshot attempts fail. -/
def c5Env : RunEnv :=
  ⟨true, ⟨false, "", false, ""⟩,
   [("2025-10-07", ⟨"", false, InspectOutcome.ran none none none [], false, false⟩)]⟩

/-- A date environment whose two screenshot attempts both fail. -/
def c5Date : DateEnv := ⟨"", false, InspectOutcome.ran none none none [], false, false⟩

/-- A run against a calendar showing August 2025: the setup navigation
does nothing (neither September nor October), and each of the two
per-date checks clicks the next arrow — the second even though its
calendar text matches no month pattern at all. -/
def c6Env : RunEnv :=
  ⟨true, ⟨true, "August 2025", true, ""⟩,
   [("2025-10-07", ⟨"August 2025", true, InspectOutcome.ran none none none [], true, true⟩),
    ("2025-10-08", ⟨"hello", true, InspectOutcome.ran none none none [], true, true⟩)]⟩

/-- The second date's environment inside `c6Env`. -/
def c6Date : DateEnv := ⟨"hello", true, InspectOutcome.ran none none none [], true, true⟩

/-- An empty-date run whose setup text matches no month pattern. -/
def c6EnvW : RunEnv := ⟨true, ⟨true, "hello world", true, ""⟩, []⟩

/-- A one-date run where no selector finds the cell and three `.title-day`
texts are visible. -/
def c8Env : RunEnv :=
  ⟨true, ⟨false, "", false, ""⟩,
   [("2025-10-07",
     ⟨"", false, InspectOutcome.ran none none none ["7", "x", " 12 "], true, true⟩)]⟩

/-- The date environment inside `c8Env`. -/
def c8Date : DateEnv :=
  ⟨"", false, InspectOutcome.ran none none none ["7", "x", " 12 "], true, true⟩

/-- A completed one-date run used to instantiate the evidence bound. -/
def c9Env : RunEnv :=
  ⟨true, ⟨false, "", false, ""⟩,
   [("2025-10-07", ⟨"", false, InspectOutcome.ran none none none [], true, true⟩)]⟩

/-- The report `runMulti c9Env` produces. -/
def c9Rep : RunReport :=
  ⟨[⟨"2025-10-07", Verdict.UNSURE, "date element not found"⟩],
   [Effect.shotFrame "screenshots/2025_10_07.png"], [[]]⟩

/-- A trivial completed run with no dates. -/
def c10Env : RunEnv := ⟨true, ⟨false, "", false, ""⟩, []⟩

/-! ### Helper lemmas -/

/-- Truncation to 300 characters really bounds the length. -/
theorem truncate300_len_le (s : String) : (truncate300 s).data.length ≤ 300 := by
  show (s.data.take 300).length ≤ 300
  simp [List.length_take]

/-- Click counting distributes over trace concatenation. -/
theorem countClicks_append (a b : List Effect) :
    countClicks (a ++ b) = countClicks a + countClicks b := by
  simp [countClicks, List.filter_append]

/-- Notification freedom distributes over trace concatenation. -/
theorem noNotify_append (a b : List Effect) :
    noNotify (a ++ b) = (noNotify a && noNotify b) := by
  simp [noNotify, List.all_append]

/-- The per-date navigation check clicks at most once. -/
theorem dateNav_clicks_le (f : Bool) (ty tm : Nat) (e : DateEnv) :
    countClicks (dateNavEffects f ty tm e) ≤ 1 := by
  unfold dateNavEffects
  split_ifs <;> decide

/-- The per-date navigation check never notifies. -/
theorem dateNav_no_notify (f : Bool) (ty tm : Nat) (e : DateEnv) :
    noNotify (dateNavEffects f ty tm e) = true := by
  unfold dateNavEffects
  split_ifs <;> decide

/-- The setup navigation clicks at most once. -/
theorem setupNav_clicks_le (e : SetupEnv) : countClicks (setupNav e).1 ≤ 1 := by
  unfold setupNav
  cases hio : e.iframeOk with
  | false => simp [countClicks]
  | true =>
    cases hm : findMonthMatch e.bodyText with
    | none => simp [countClicks]
    | some m =>
      simp only [Bool.not_true, Bool.false_eq_true, if_false]
      split_ifs <;> simp [countClicks, isClick]

/-- The setup navigation never notifies. -/
theorem setupNav_no_notify (e : SetupEnv) : noNotify (setupNav e).1 = true := by
  unfold setupNav
  cases hio : e.iframeOk with
  | false => simp [noNotify]
  | true =>
    cases hm : findMonthMatch e.bodyText with
    | none => simp [noNotify]
    | some m =>
      simp only [Bool.not_true, Bool.false_eq_true, if_false]
      split_ifs <;> simp [noNotify, isNotify]

/-- When the month pattern does not match the frame text, the setup
navigation is a no-op: no click, flag unset. -/
theorem setupNav_skip (e : SetupEnv) (h : findMonthMatch e.bodyText = none) :
    setupNav e = ([], false) := by
  unfold setupNav
  cases hio : e.iframeOk <;> simp [h]

/-- A date whose screenshots do not both fail is processed to its
expected result, with at most one click and no notification in its
trace. -/
theorem dateStep_ok (f : Bool) (d : String) (ty tm : Nat) (e : DateEnv)
    (h : (e.frameShotOk || e.pageShotOk) = true) :
    ∃ fx, dateStep f d ty tm e =
        Except.ok (expectedResult (d, e), fx, expectedDebug (d, e)) ∧
      countClicks fx ≤ 1 ∧ noNotify fx = true := by
  cases hf : e.frameShotOk with
  | true =>
    refine ⟨dateNavEffects f ty tm e ++ [Effect.shotFrame (shotPath d)], ?_, ?_, ?_⟩
    · simp [dateStep, expectedResult, expectedDebug, hf]
    · rw [countClicks_append]
      have h1 := dateNav_clicks_le f ty tm e
      have h2 : countClicks [Effect.shotFrame (shotPath d)] = 0 := by
        simp [countClicks, isClick]
      omega
    · rw [noNotify_append, dateNav_no_notify]
      simp [noNotify, isNotify]
  | false =>
    cases hp : e.pageShotOk with
    | true =>
      refine ⟨dateNavEffects f ty tm e ++
        [Effect.shotFrame (shotPath d), Effect.shotPage (shotPath d)], ?_, ?_, ?_⟩
      · simp [dateStep, expectedResult, expectedDebug, hf, hp]
      · rw [countClicks_append]
        have h1 := dateNav_clicks_le f ty tm e
        have h2 : countClicks [Effect.shotFrame (shotPath d),
            Effect.shotPage (shotPath d)] = 0 := by
          simp [countClicks, isClick]
        omega
      · rw [noNotify_append, dateNav_no_notify]
        simp [noNotify, isNotify]
    | false => rw [hf, hp] at h; simp at h

/-- Processing a list of dates that all parse and whose screenshots do
not doubly fail completes, producing exactly the expected result and
day listing for every date, with at most one click per date and no
notification. -/
theorem processDates_ok (f : Bool) (ds : List (String × DateEnv))
    (h : ∀ p ∈ ds, (parseDate p.1).isSome = true ∧
      (p.2.frameShotOk || p.2.pageShotOk) = true) :
    ∃ fxs, processDates f ds =
        Except.ok (ds.map expectedResult, fxs, ds.map expectedDebug) ∧
      countClicks fxs ≤ ds.length ∧ noNotify fxs = true := by
  induction ds with
  | nil => exact ⟨[], rfl, by decide, by decide⟩
  | cons p rest ih =>
    obtain ⟨hp, hrest⟩ := List.forall_mem_cons.mp h
    obtain ⟨d, e⟩ := p
    obtain ⟨hparse, hshot⟩ := hp
    cases hpd : parseDate d with
    | none => rw [hpd] at hparse; simp at hparse
    | some t =>
      obtain ⟨ty, tm, td⟩ := t
      obtain ⟨fx, hfx, hc1, hn1⟩ := dateStep_ok f d ty tm e hshot
      obtain ⟨fxs, hps, hc2, hn2⟩ := ih hrest
      refine ⟨fx ++ fxs, ?_, ?_, ?_⟩
      · simp [processDates, hpd, hfx, hps]
      · rw [countClicks_append]
        simp only [List.length_cons]
        omega
      · rw [noNotify_append, hn1, hn2]
        rfl

/-- Characterisation of a completed multi-date run under the same
assumptions: the summary prints, the exit code is 0, every date yields
its expected result and listing, and at most `1 + N` clicks occur. -/
theorem runMulti_ok (env : RunEnv)
    (hg : env.gotoOk = true)
    (hok : ∀ p ∈ env.dates, (parseDate p.1).isSome = true ∧
      (p.2.frameShotOk || p.2.pageShotOk) = true) :
    resultsOf (runMulti env) = some (env.dates.map expectedResult) ∧
    debugOf (runMulti env) = some (env.dates.map expectedDebug) ∧
    summaryPrinted (runMulti env) = true ∧
    exitCode (runMulti env) = 0 ∧
    runClickCount (runMulti env) ≤ 1 + env.dates.length := by
  obtain ⟨fxs, hps, hc, -⟩ := processDates_ok (setupNav env.setup).2 env.dates hok
  have hrm : runMulti env = RunOutcome.completed
      ⟨env.dates.map expectedResult, (setupNav env.setup).1 ++ fxs,
       env.dates.map expectedDebug⟩ := by
    simp [runMulti, hg, hps]
  rw [hrm]
  refine ⟨rfl, rfl, rfl, rfl, ?_⟩
  show countClicks ((setupNav env.setup).1 ++ fxs) ≤ 1 + env.dates.length
  rw [countClicks_append]
  have := setupNav_clicks_le env.setup
  omega

/-- Whenever `dateStep` succeeds — no assumption on the environment —
the recorded evidence is at most 300 characters and the trace contains
no notification. -/
theorem dateStep_inv (f : Bool) (d : String) (ty tm : Nat) (e : DateEnv)
    (r : CheckResult) (fx : List Effect) (dbg : List String)
    (h : dateStep f d ty tm e = Except.ok (r, fx, dbg)) :
    r.evidence.data.length ≤ 300 ∧ noNotify fx = true := by
  unfold dateStep at h
  split_ifs at h with h1 h2
  · simp only [Except.ok.injEq, Prod.mk.injEq] at h
    obtain ⟨hr, hfx, -⟩ := h
    subst hr
    subst hfx
    refine ⟨truncate300_len_le _, ?_⟩
    rw [noNotify_append, dateNav_no_notify]
    simp [noNotify, isNotify]
  · simp only [Except.ok.injEq, Prod.mk.injEq] at h
    obtain ⟨hr, hfx, -⟩ := h
    subst hr
    subst hfx
    refine ⟨truncate300_len_le _, ?_⟩
    rw [noNotify_append, dateNav_no_notify]
    simp [noNotify, isNotify]

/-- Whenever the date loop completes — no assumption on the environment
— every recorded evidence string is at most 300 characters and the
whole trace contains no notification. -/
theorem processDates_inv (f : Bool) (ds : List (String × DateEnv))
    (out : List CheckResult × List Effect × List (List String))
    (h : processDates f ds = Except.ok out) :
    (∀ r ∈ out.1, r.evidence.data.length ≤ 300) ∧ noNotify out.2.1 = true := by
  induction ds generalizing out with
  | nil =>
    simp only [processDates, Except.ok.injEq] at h
    subst h
    exact ⟨by simp, by decide⟩
  | cons p rest ih =>
    obtain ⟨d, e⟩ := p
    simp only [processDates] at h
    cases hpd : parseDate d with
    | none => simp only [hpd] at h; exact Except.noConfusion h
    | some t =>
      obtain ⟨ty, tm, td⟩ := t
      simp only [hpd] at h
      cases hds : dateStep f d ty tm e with
      | error u => simp only [hds] at h; exact Except.noConfusion h
      | ok v =>
        obtain ⟨r, fx, dbg⟩ := v
        simp only [hds] at h
        cases hrest : processDates f rest with
        | error u => simp only [hrest] at h; exact Except.noConfusion h
        | ok w =>
          obtain ⟨rs, fxs, dbgs⟩ := w
          simp only [hrest] at h
          simp only [Except.ok.injEq] at h
          subst h
          obtain ⟨hre, hrn⟩ := dateStep_inv f d ty tm e r fx dbg hds
          obtain ⟨ihe, ihn⟩ := ih (rs, fxs, dbgs) hrest
          constructor
          · intro x hx
            rcases List.mem_cons.mp hx with hx1 | hx2
            · subst hx1; exact hre
            · exact ihe x hx2
          · show noNotify (fx ++ fxs) = true
            rw [noNotify_append, hrn, ihn]
            rfl

/-- Any completed run — no assumption on the environment — bounds every
evidence string by 300 characters and performs no notification. -/
theorem runMulti_inv (env : RunEnv) (rep : RunReport)
    (h : runMulti env = RunOutcome.completed rep) :
    (∀ r ∈ rep.results, r.evidence.data.length ≤ 300) ∧
    noNotify rep.effects = true := by
  unfold runMulti at h
  cases hg : env.gotoOk with
  | false => simp only [hg] at h; exact RunOutcome.noConfusion h
  | true =>
    simp only [hg, if_true] at h
    cases hps : processDates (setupNav env.setup).2 env.dates with
    | error u => simp only [hps] at h; exact RunOutcome.noConfusion h
    | ok out =>
      obtain ⟨rs, fxs, dbgs⟩ := out
      simp only [hps] at h
      simp only [RunOutcome.completed.injEq] at h
      subst h
      obtain ⟨he, hn⟩ := processDates_inv _ _ _ hps
      refine ⟨he, ?_⟩
      show noNotify ((setupNav env.setup).1 ++ fxs) = true
      rw [noNotify_append, setupNav_no_notify, hn]
      rfl

/-! ### Claim theorems -/

/-- C1: the full-page classifier `looks_available` checks the negative
textual markers first and returns `false` (UNAVAILABLE) if any matches;
only if none matches does it check the positive markers, returning
`true` (AVAILABLE) on a match; with neither class of marker it returns
`false` (UNAVAILABLE-by-default).  It is a total function — no
exception — and in particular text containing both `Sold out` and an
open circle yields UNAVAILABLE, and marker-free text yields
UNAVAILABLE. -/
theorem c1_full_page_classifier (text : String) :
    (hasNegMarker text = true → looks_available text = false) ∧
    (hasNegMarker text = false → hasPosMarker text = true →
      looks_available text = true) ∧
    (hasNegMarker text = false → hasPosMarker text = false →
      looks_available text = false) ∧
    looks_available "Status: Sold out ○" = false ∧
    looks_available "Welcome to the museum" = false := by
  refine ⟨?_, ?_, ?_, by decide, by decide⟩
  · intro h
    simp [looks_available, h]
  · intro h1 h2
    simp [looks_available, h1, h2]
  · intro h1 h2
    simp [looks_available, h1, h2]

/-- C1 witness: a text carrying only the `△` positive marker is
classified AVAILABLE through the theorem. -/
theorem c1_full_page_classifier_witness :
    looks_available "△ few slots" = true :=
  (c1_full_page_classifier "△ few slots").2.1 (by decide) (by decide)

/-- C2 counterexample: the claim says a CSS class containing
`"pointer-disabled"` yields UNAVAILABLE, but the code tests for the
substring `pointer-none`; a cell whose class is exactly
`pointer-disabled` and carries no icon falls through every branch and
is classified UNSURE, not UNAVAILABLE.  (Likewise the code tests
`sold-out-layout`, not `sold-out`, and `day-active`, not `active`.) -/
theorem c2_cell_classifier_cex :
    strContains "pointer-disabled" "pointer-disabled" = true ∧
    classifyButton ⟨false, false, false, "pointer-disabled", ""⟩ =
      (Verdict.UNSURE, "unknown button state: pointer-disabled") := by decide

/-- C2 amended: the cell classifier assigns the verdict by exclusive
first-match priority — available icon → AVAILABLE; few-left icon →
AVAILABLE; sold-out icon → UNAVAILABLE; class containing
`sold-out-layout` → UNAVAILABLE; class containing `pointer-none`
(closed date) → UNAVAILABLE; class containing `day-active` together
with the substring `aval` in the first 200 characters of the inner
HTML → AVAILABLE (without it, UNSURE); otherwise UNSURE — and a cell
whose class contains `sold-out-layout` with no availability icon
yields UNAVAILABLE with evidence `sold-out-layout class`. -/
theorem c2_cell_classifier (b : ButtonObs) :
    (b.available_img = true →
      classifyButton b = (Verdict.AVAILABLE, "available.svg found")) ∧
    (b.available_img = false → b.few_left_img = true →
      classifyButton b = (Verdict.AVAILABLE, "only_one_left.svg found")) ∧
    (b.available_img = false → b.few_left_img = false → b.sold_out_img = true →
      classifyButton b = (Verdict.UNAVAILABLE, "sold_out.svg found")) ∧
    (b.available_img = false → b.few_left_img = false → b.sold_out_img = false →
      strContains "sold-out-layout" b.button_class = true →
      classifyButton b = (Verdict.UNAVAILABLE, "sold-out-layout class")) ∧
    (b.available_img = false → b.few_left_img = false → b.sold_out_img = false →
      strContains "sold-out-layout" b.button_class = false →
      strContains "pointer-none" b.button_class = true →
      classifyButton b = (Verdict.UNAVAILABLE, "pointer-none class (closed)")) ∧
    (b.available_img = false → b.few_left_img = false → b.sold_out_img = false →
      strContains "sold-out-layout" b.button_class = false →
      strContains "pointer-none" b.button_class = false →
      strContains "day-active" b.button_class = true →
      strContains "aval" (truncate200 b.button_html) = true →
      classifyButton b = (Verdict.AVAILABLE, "day-active + aval found")) ∧
    (b.available_img = false → b.few_left_img = false → b.sold_out_img = false →
      strContains "sold-out-layout" b.button_class = false →
      strContains "pointer-none" b.button_class = false →
      strContains "day-active" b.button_class = true →
      strContains "aval" (truncate200 b.button_html) = false →
      classifyButton b =
        (Verdict.UNSURE, "day-active but no clear availability indicator")) ∧
    (b.available_img = false → b.few_left_img = false → b.sold_out_img = false →
      strContains "sold-out-layout" b.button_class = false →
      strContains "pointer-none" b.button_class = false →
      strContains "day-active" b.button_class = false →
      classifyButton b =
        (Verdict.UNSURE, "unknown button state: " ++ b.button_class)) := by
  refine ⟨?_, ?_, ?_, ?_, ?_, ?_, ?_, ?_⟩ <;>
    · intros
      simp [classifyButton, *]

/-- C2 witness: a cell with the `sold-out-layout` class and no icon is
UNAVAILABLE with the claimed evidence, through the theorem. -/
theorem c2_cell_classifier_witness :
    classifyButton ⟨false, false, false, "x sold-out-layout y", ""⟩ =
      (Verdict.UNAVAILABLE, "sold-out-layout class") :=
  (c2_cell_classifier ⟨false, false, false, "x sold-out-layout y", ""⟩).2.2.2.1
    rfl rfl rfl (by decide)

/-- C7 counterexample: the claim says no AVAILABLE or UNAVAILABLE
verdict is ever produced without a matching marker (full-page path
included), but the full-page classifier returns `false` (the spec's
UNAVAILABLE-by-default) on text matching no negative and no positive
marker. -/
theorem c7_marker_invariant_cex :
    hasNegMarker "Welcome to the museum" = false ∧
    hasPosMarker "Welcome to the museum" = false ∧
    looks_available "Welcome to the museum" = false := by decide

/-- C7 amended: in the cell-level path the invariant holds — a cell
verdict of AVAILABLE requires a positive marker, UNAVAILABLE requires a
negative marker, no marker forces UNSURE, and a non-UNSURE inspection
verdict always comes from a found, classified button; the full-page
path, however, returns UNAVAILABLE-by-default even when no marker
matches. -/
theorem c7_marker_invariant (b : ButtonObs) (o : InspectOutcome) (t : String) :
    ((classifyButton b).1 = Verdict.AVAILABLE → cellPosMarker b = true) ∧
    ((classifyButton b).1 = Verdict.UNAVAILABLE → cellNegMarker b = true) ∧
    (cellPosMarker b = false → cellNegMarker b = false →
      (classifyButton b).1 = Verdict.UNSURE) ∧
    ((inspectDate o).1 ≠ Verdict.UNSURE →
      ∃ b2, foundButtonOf o = some b2 ∧
        (inspectDate o).1 = (classifyButton b2).1) ∧
    (hasNegMarker t = false → hasPosMarker t = false →
      looks_available t = false) := by
  refine ⟨?_, ?_, ?_, ?_, ?_⟩
  · intro h
    unfold classifyButton at h
    unfold cellPosMarker
    split_ifs at h with h1 h2 h3 h4 h5 h6 h7 <;> simp_all
  · intro h
    unfold classifyButton at h
    unfold cellNegMarker
    split_ifs at h with h1 h2 h3 h4 h5 h6 h7 <;> simp_all
  · intro hp hn
    unfold cellPosMarker at hp
    unfold cellNegMarker at hn
    unfold classifyButton
    simp only [Bool.or_eq_false_iff, Bool.and_eq_false_iff] at hp hn
    obtain ⟨⟨hav, hfl⟩, hda⟩ := hp
    obtain ⟨⟨hso, hsl⟩, hpn⟩ := hn
    split_ifs <;> simp_all
  · cases o with
    | raised msg => intro h; exact absurd rfl h
    | ran s1 s2 s3 days =>
      cases hfs : firstSel s1 s2 s3 with
      | none => intro h; exact absurd (by simp [inspectDate, hfs]) h
      | some ob =>
        cases ob with
        | none => intro h; exact absurd (by simp [inspectDate, hfs]) h
        | some b2 =>
          intro _
          exact ⟨b2, by simp [foundButtonOf, hfs], by simp [inspectDate, hfs]⟩
  · intro h1 h2
    simp [looks_available, h1, h2]

/-- C7 witness: a bare cell with no icon and empty class is UNSURE,
through the theorem. -/
theorem c7_marker_invariant_witness :
    (classifyButton ⟨false, false, false, "", ""⟩).1 = Verdict.UNSURE :=
  (c7_marker_invariant ⟨false, false, false, "", ""⟩
    (InspectOutcome.raised "x") "").2.2.1 (by decide) (by decide)

/-- C3 counterexample: the claim says the multi-date entry point prints
the summary and exits 0 regardless of what happens during page
navigation, but the outer try of the `__main__` block has only a
`finally`: when the initial `page.goto` raises, the run crashes — no
summary, nonzero exit. -/
theorem c3_exit_codes_cex :
    runMulti c3Env = RunOutcome.crashed ∧
    summaryPrinted (runMulti c3Env) = false ∧
    exitCode (runMulti c3Env) = 1 := by decide

/-- C3 amended: provided the initial navigation succeeds, every date
string parses, and no date's screenshot fails on both attempts, the
multi-date entry point prints the summary and exits 0 (whatever the
per-date inspections do); an exception during initial navigation
instead propagates, skipping the summary and exiting nonzero.  The
single-date entry point alone uses exit code 2 for a navigation timeout
and 3 for an unexpected error. -/
theorem c3_exit_codes (env : RunEnv) (msg : String)
    (hg : env.gotoOk = true)
    (hok : ∀ p ∈ env.dates, (parseDate p.1).isSome = true ∧
      (p.2.frameShotOk || p.2.pageShotOk) = true) :
    summaryPrinted (runMulti env) = true ∧
    exitCode (runMulti env) = 0 ∧
    (mainSingle NavResult.timeout).1 = 2 ∧
    (mainSingle (NavResult.err msg)).1 = 3 := by
  obtain ⟨-, -, h3, h4, -⟩ := runMulti_ok env hg hok
  exact ⟨h3, h4, rfl, rfl⟩

/-- C3 witness: a concrete completed one-date run, through the
theorem. -/
theorem c3_exit_codes_witness :
    summaryPrinted (runMulti c3EnvW) = true ∧
    exitCode (runMulti c3EnvW) = 0 ∧
    (mainSingle NavResult.timeout).1 = 2 ∧
    (mainSingle (NavResult.err "boom")).1 = 3 :=
  c3_exit_codes c3EnvW "boom" rfl (by decide)

/-- C4: when the inspection of one date raises an unexpected exception,
it is caught for that date alone and recorded as `error: ...` evidence
(truncated to the 300-character bound), and the final summary still
holds exactly one entry per requested date, every other date classified
normally (each result is the pointwise classification of its own
environment).  The hypotheses `hg`/`hok` only ensure the run reaches
the summary at all: initial navigation succeeds, the dates parse, and
no date's screenshot doubly fails. -/
theorem c4_partial_failure (env : RunEnv) (dK : String) (eK : DateEnv)
    (msg : String)
    (hg : env.gotoOk = true)
    (_hmem : (dK, eK) ∈ env.dates)
    (hK : eK.inspect = InspectOutcome.raised msg)
    (hok : ∀ p ∈ env.dates, (parseDate p.1).isSome = true ∧
      (p.2.frameShotOk || p.2.pageShotOk) = true) :
    resultsOf (runMulti env) = some (env.dates.map expectedResult) ∧
    (env.dates.map expectedResult).length = env.dates.length ∧
    expectedResult (dK, eK) =
      ⟨dK, Verdict.UNSURE, truncate300 ("error: " ++ msg)⟩ ∧
    summaryPrinted (runMulti env) = true := by
  obtain ⟨h1, -, h3, -, -⟩ := runMulti_ok env hg hok
  refine ⟨h1, List.length_map _ _, ?_, h3⟩
  simp [expectedResult, hK, inspectDate, joinEv]

/-- C4 witness: a two-date batch whose second date raises `boom`,
through the theorem. -/
theorem c4_partial_failure_witness :
    resultsOf (runMulti c4Env) = some (c4Env.dates.map expectedResult) ∧
    (c4Env.dates.map expectedResult).length = c4Env.dates.length ∧
    expectedResult ("2025-10-08", c4Date) =
      ⟨"2025-10-08", Verdict.UNSURE, truncate300 ("error: " ++ "boom")⟩ ∧
    summaryPrinted (runMulti c4Env) = true :=
  c4_partial_failure c4Env "2025-10-08" c4Date "boom" rfl (by decide) rfl
    (by decide)

/-- C5 counterexample: the claim says a failure of the fallback
screenshot is swallowed silently and never aborts the run, but the
fallback `page.screenshot` call sits outside any handler: when both
attempts fail the run crashes — exit 1, no summary. -/
theorem c5_screenshot_cex :
    runMulti c5Env = RunOutcome.crashed ∧
    exitCode (runMulti c5Env) = 1 ∧
    summaryPrinted (runMulti c5Env) = false := by decide

/-- C5 amended: when the frame screenshot fails, exactly one fallback
attempt is made against the top-level document (the trace shows the
frame attempt then the page attempt, and nothing else); if the fallback
also fails the exception propagates uncaught and aborts the whole run,
rather than being swallowed. -/
theorem c5_screenshot_fallback (f : Bool) (d : String) (ty tm : Nat)
    (e : DateEnv) :
    (e.frameShotOk = true →
      dateStep f d ty tm e =
        Except.ok (expectedResult (d, e),
          dateNavEffects f ty tm e ++ [Effect.shotFrame (shotPath d)],
          expectedDebug (d, e))) ∧
    (e.frameShotOk = false → e.pageShotOk = true →
      dateStep f d ty tm e =
        Except.ok (expectedResult (d, e),
          dateNavEffects f ty tm e ++
            [Effect.shotFrame (shotPath d), Effect.shotPage (shotPath d)],
          expectedDebug (d, e))) ∧
    (e.frameShotOk = false → e.pageShotOk = false →
      dateStep f d ty tm e = Except.error ()) := by
  refine ⟨?_, ?_, ?_⟩
  · intro h1
    simp [dateStep, expectedResult, expectedDebug, h1]
  · intro h1 h2
    simp [dateStep, expectedResult, expectedDebug, h1, h2]
  · intro h1 h2
    simp [dateStep, h1, h2]

/-- C5 witness: a date whose two screenshot attempts both fail makes
`dateStep` raise, through the theorem. -/
theorem c5_screenshot_fallback_witness :
    dateStep false "2025-10-07" 2025 10 c5Date = Except.error () :=
  (c5_screenshot_fallback false "2025-10-07" 2025 10 c5Date).2.2 rfl rfl

/-- C6 counterexample: the claim allows at most one forward click per
whole multi-date loop and no click when no month pattern matches, but
on a calendar showing August 2025 with two October dates the run
completes with two clicks — and the second click happens although the
date's calendar text `hello` matches no month pattern at all (the
per-date check is a literal `October 2025` containment, not the month
pattern). -/
theorem c6_navigation_cex :
    runClickCount (runMulti c6Env) = 2 ∧
    summaryPrinted (runMulti c6Env) = true ∧
    findMonthMatch "hello" = none ∧
    dateNavEffects false 2025 10 c6Date = [Effect.clickNextMonth] := by decide

/-- C6 amended: the one-time setup navigation clicks at most once and
is skipped entirely when no month pattern matches the frame text; the
per-date loop, however, may add one further forward click for every
requested date (gated by the navigated flag and by a literal
`October 2025` text containment, not the month pattern), so a completed
run performs at most `1 + N` clicks for `N` dates. -/
theorem c6_navigation (env : RunEnv)
    (hg : env.gotoOk = true)
    (hok : ∀ p ∈ env.dates, (parseDate p.1).isSome = true ∧
      (p.2.frameShotOk || p.2.pageShotOk) = true) :
    countClicks (setupNav env.setup).1 ≤ 1 ∧
    (findMonthMatch env.setup.bodyText = none → setupNav env.setup = ([], false)) ∧
    runClickCount (runMulti env) ≤ 1 + env.dates.length := by
  exact ⟨setupNav_clicks_le env.setup, setupNav_skip env.setup,
    (runMulti_ok env hg hok).2.2.2.2⟩

/-- C6 witness: an empty-date run whose setup text matches no month
pattern, through the theorem. -/
theorem c6_navigation_witness :
    countClicks (setupNav c6EnvW.setup).1 ≤ 1 ∧
    setupNav c6EnvW.setup = ([], false) ∧
    runClickCount (runMulti c6EnvW) ≤ 1 + c6EnvW.dates.length := by
  have h := c6_navigation c6EnvW rfl (by decide)
  exact ⟨h.1, h.2.1 (by decide), h.2.2⟩

/-- C8: when none of the three ordered selector strategies finds a date
cell, that date's verdict is UNSURE with evidence
`date element not found`, the diagnostic listing of all visible day
numbers (the `.title-day` texts whose stripped value is all digits) is
recorded, and the run still produces one entry per requested date —
the batch is not aborted.  The hypotheses `hg`/`hok` only ensure the
run reaches the summary at all. -/
theorem c8_not_found (env : RunEnv) (d : String) (e : DateEnv)
    (days : List String)
    (hg : env.gotoOk = true)
    (_hmem : (d, e) ∈ env.dates)
    (hins : e.inspect = InspectOutcome.ran none none none days)
    (hok : ∀ p ∈ env.dates, (parseDate p.1).isSome = true ∧
      (p.2.frameShotOk || p.2.pageShotOk) = true) :
    resultsOf (runMulti env) = some (env.dates.map expectedResult) ∧
    (env.dates.map expectedResult).length = env.dates.length ∧
    expectedResult (d, e) = ⟨d, Verdict.UNSURE, "date element not found"⟩ ∧
    debugOf (runMulti env) = some (env.dates.map expectedDebug) ∧
    expectedDebug (d, e) = days.filter stripDigits ∧
    summaryPrinted (runMulti env) = true := by
  obtain ⟨h1, h2, h3, -, -⟩ := runMulti_ok env hg hok
  refine ⟨h1, List.length_map _ _, ?_, h2, ?_, h3⟩
  · have ht : truncate300 "date element not found" = "date element not found" := by
      decide
    simp [expectedResult, hins, inspectDate, firstSel, joinEv, ht]
  · simp [expectedDebug, hins, inspectDate, firstSel]

/-- C8 witness: a one-date run where the cell is not found among the
visible day texts `["7", "x", " 12 "]`, through the theorem. -/
theorem c8_not_found_witness :
    resultsOf (runMulti c8Env) = some (c8Env.dates.map expectedResult) ∧
    (c8Env.dates.map expectedResult).length = c8Env.dates.length ∧
    expectedResult ("2025-10-07", c8Date) =
      ⟨"2025-10-07", Verdict.UNSURE, "date element not found"⟩ ∧
    debugOf (runMulti c8Env) = some (c8Env.dates.map expectedDebug) ∧
    expectedDebug ("2025-10-07", c8Date) =
      ["7", "x", " 12 "].filter stripDigits ∧
    summaryPrinted (runMulti c8Env) = true :=
  c8_not_found c8Env "2025-10-07" c8Date ["7", "x", " 12 "] rfl (by decide)
    rfl (by decide)

/-- C9: in every completed run, every recorded evidence field is at most
300 characters, however many evidence strings were appended — the
joined evidence is truncated with `[:300]` before being recorded. -/
theorem c9_evidence_bound (env : RunEnv) (rep : RunReport)
    (h : runMulti env = RunOutcome.completed rep) :
    ∀ r ∈ rep.results, r.evidence.data.length ≤ 300 :=
  (runMulti_inv env rep h).1

/-- C9 witness: the single result of a concrete completed run satisfies
the bound, through the theorem. -/
theorem c9_evidence_bound_witness :
    (⟨"2025-10-07", Verdict.UNSURE, "date element not found"⟩ :
      CheckResult).evidence.data.length ≤ 300 :=
  c9_evidence_bound c9Env c9Rep (by decide)
    ⟨"2025-10-07", Verdict.UNSURE, "date element not found"⟩ (by decide)

/-- C10: no run of the multi-date entry point ever invokes a
notification channel — its effect trace is notification-free — while
the single-date entry point notifies only when its full-page heuristic
reports availability: any notification effect of `mainSingle` implies
the navigation succeeded and `looks_available` returned `true` on the
page text. -/
theorem c10_no_notification (env : RunEnv) (rep : RunReport) (nav : NavResult)
    (h : runMulti env = RunOutcome.completed rep) :
    noNotify rep.effects = true ∧
    ((mainSingle nav).2.any isNotify = true →
      ∃ t, nav = NavResult.ok t ∧ looks_available t = true) := by
  refine ⟨(runMulti_inv env rep h).2, ?_⟩
  cases nav with
  | ok t =>
    cases hla : looks_available t with
    | true =>
      intro _
      exact ⟨t, rfl, hla⟩
    | false =>
      intro hx
      simp [mainSingle, hla] at hx
  | timeout => intro hx; simp [mainSingle] at hx
  | err msg => intro hx; simp [mainSingle] at hx

/-- C10 witness: the trivial completed run with no dates has a
notification-free trace, through the theorem. -/
theorem c10_no_notification_witness :
    noNotify (RunReport.mk [] [] []).effects = true :=
  (c10_no_notification c10Env ⟨[], [], []⟩ NavResult.timeout (by decide)).1
